import Mathlib

/-!
Shallow embedding of the frame decoder / minute-bucket aggregation engine of
`src/bin/user/drivers/vueiss.py` (weewx "VueISS" driver).

Modelling conventions:
* Python unbounded non-negative integers are `ℕ`; timestamps are `ℤ`
  (Python `%` on a positive modulus agrees with `Int.emod`).
* Python floats are idealised as `ℚ`; the float literals of the source
  (`0.44704`, `0.2001`, `1.01`, `310.8`, `0.01`) appear as the exact rationals
  written with the same digits.
* The transcendental operations of the source (`cos`, `sin`, `acos`, `norm`,
  `pow`, `exp`, `log`, applied inside `WindData`, `BarometerData`,
  `calc_svp`/`calc_dewpoint`) are parameters collected in a `Geo` structure:
  every theorem below either holds for all values of those parameters or is
  evaluated at the concrete all-zero instance `geoZero` when only the control
  flow (which never depends on them) matters.
* A Python exception escaping a function is modelled as `none`; `try/except`
  blocks are modelled by the explicit fall-back the source uses.
* A raw frame is the list of whitespace-separated tokens: `List String`.
-/

namespace Vueiss

/-- Python-2 `round(x)`: round half away from zero, as an integer. -/
def pyround (q : ℚ) : ℤ :=
  if q ≥ 0 then ⌊q + 1/2⌋ else -⌊-q + 1/2⌋

/-- Python-2 `round(x, n)`: round half away from zero at `n` decimal digits. -/
def pyroundN (q : ℚ) (n : ℕ) : ℚ :=
  (pyround (q * 10 ^ n) : ℚ) / 10 ^ n

/-- Value of a hexadecimal digit character, if any. -/
def hexDigitVal (c : Char) : Option ℕ :=
  if '0' ≤ c ∧ c ≤ '9' then some (c.toNat - '0'.toNat)
  else if 'a' ≤ c ∧ c ≤ 'f' then some (c.toNat - 'a'.toNat + 10)
  else if 'A' ≤ c ∧ c ≤ 'F' then some (c.toNat - 'A'.toNat + 10)
  else none

/-- Python `int(s, 16)` restricted to plain hex-digit strings (the only form
raw frames contain); any other string raises, i.e. yields `none`. -/
def hexVal (s : String) : Option ℕ :=
  match s.toList with
  | [] => none
  | cs => cs.foldl (fun acc c => acc.bind fun a => (hexDigitVal c).map fun d => 16 * a + d)
      (some 0)

/-- `int(data[i], 16)`: token fetch (IndexError ⇒ `none`) plus hex parse. -/
def hexAt (data : List String) (i : ℕ) : Option ℕ :=
  (data.get? i).bind hexVal

/-- Python `float(s)` restricted to plain decimal-digit strings (all the
barometer tokens used below are of this shape); others raise ⇒ `none`. -/
def decVal (s : String) : Option ℚ :=
  match s.toList with
  | [] => none
  | cs => cs.foldl
      (fun acc c => acc.bind fun a =>
        if '0' ≤ c ∧ c ≤ '9' then some (10 * a + (c.toNat - '0'.toNat : ℕ)) else none)
      (some 0)

/-- `float(data[i])` with token fetch. -/
def decAt (data : List String) (i : ℕ) : Option ℚ :=
  (data.get? i).bind decVal

/-- Python truthiness of an optional number (`None` and `0` are falsy). -/
def truthy (o : Option ℚ) : Bool :=
  match o with
  | none => false
  | some v => v ≠ 0

/-- The `round(x, n) if x else None` idiom used for every packet field. -/
def truthyRound (o : Option ℚ) (n : ℕ) : Option ℚ :=
  match o with
  | none => none
  | some v => if v = 0 then none else some (pyroundN v n)

/-! ## CRC16 engine (lines 32-65 of the source) -/

def POLYNOMIAL : ℕ := 0x1021

def PRESET : ℕ := 0

/-- One shift/XOR iteration of `_initial`'s loop, on the pair `(crc, c)`.
As in the source, `crc` is NOT masked to 16 bits here. -/
def initialStep (p : ℕ × ℕ) : ℕ × ℕ :=
  if (p.1 ^^^ p.2) &&& 0x8000 ≠ 0 then ((p.1 <<< 1) ^^^ POLYNOMIAL, p.2 <<< 1)
  else (p.1 <<< 1, p.2 <<< 1)

/-- `_initial(c)`: seed table entry for leading byte `c`. -/
def _initial (c : ℕ) : ℕ :=
  ((List.range 8).foldl (fun p _ => initialStep p) (0, c <<< 8)).1

/-- `_tab`: the 256-entry table, computed once. -/
def _tab : List ℕ :=
  (List.range 256).map _initial

/-- `_update_crc(crc, c)`. -/
def _update_crc (crc c : ℕ) : ℕ :=
  let cc := 0xff &&& c
  let tmp := (crc >>> 8) ^^^ cc
  ((crc <<< 8) ^^^ _tab.getD (tmp &&& 0xff) 0) &&& 0xffff

/-- The loop of `crc`: fold the bytes at the given token positions, but stop
and return the running value at the first token that is missing or not hex —
this is exactly the source's `try: for idx in range(2,10): ... except: pass`. -/
def crcGo (data : List String) : ℕ → List ℕ → ℕ
  | c, [] => c
  | c, i :: rest =>
    match hexAt data i with
    | none => c
    | some b => crcGo data (_update_crc c b) rest

/-- `crc(data)`: running CRC over tokens 2..9 starting from `PRESET`,
truncated at the first parse failure. -/
def crc (data : List String) : ℕ :=
  crcGo data PRESET [2, 3, 4, 5, 6, 7, 8, 9]

/-! ## Abstract real-valued operations

The source applies `cos`, `sin`, `acos`, `numpy.linalg.norm`, `pow`, `exp`
and `log` to the decoded rational values.  Those maps are collected here as
parameters; no control-flow decision of the decoder other than the
presence/value of the `windDir` and `barometer` fields depends on them. -/

structure Geo where
  /-- `cos(pi * (90.0 - direction) / 180.0)` as a function of the integer
  direction code computed in `WindData.add`. -/
  vcos : ℤ → ℚ
  /-- `sin(pi * (90.0 - direction) / 180.0)` likewise. -/
  vsin : ℤ → ℚ
  /-- `norm(self.windVektor)`: Euclidean norm of the 2-D vector sum. -/
  norm2 : ℚ → ℚ → ℚ
  /-- Direction recovery of `WindData.get` from `(vx, vy, length)`:
  `rad = acos(vx/length)`, reflected by `2*pi - rad` when `vy < 0`, mapped by
  `90 - 180*rad/pi` and folded into `[0, 360)` by adding `360` if negative. -/
  dirAngle : ℚ → ℚ → ℚ → ℚ
  /-- `pow(pow(p, 0.1902614) + 8.417168e-05 * height, 5.255927)`: sea-level
  reduction of a station pressure `p` for a station height (first argument). -/
  baroSea : ℚ → ℚ → ℚ
  /-- `exp` (used by `calc_svp`). -/
  exp : ℚ → ℚ
  /-- `log` (used by `calc_dewpoint`). -/
  log : ℚ → ℚ

/-- Concrete all-zero instance, used to evaluate closed runs whose claimed
behaviour does not depend on the transcendental operations. -/
def geoZero : Geo :=
  { vcos := fun _ => 0, vsin := fun _ => 0, norm2 := fun _ _ => 0,
    dirAngle := fun _ _ _ => 0, baroSea := fun _ _ => 0,
    exp := fun _ => 0, log := fun _ => 0 }

/-! ## Dew point (lines 67-108) -/

/-- `calc_svp(temperature)`: saturation vapour pressure.  The argument is the
optional average temperature; `not temperature` is Python truthiness. -/
def calc_svp (geo : Geo) (temperature : Option ℚ) : Option ℚ :=
  match temperature with
  | none => none
  | some t =>
    if t = 0 then none
    else
      let C1 : ℚ := 6.10780
      let C2 : ℚ := if t ≥ 0 then 17.08085 else 17.84362
      let C3 : ℚ := if t ≥ 0 then 234.175 else 245.425
      some (C1 * geo.exp (C2 * t / (C3 + t)))

/-- `calc_dewpoint(temperature, humidity)`.  Returns `None` whenever either
input is `None` or exactly `0` (the `if not temperature or not humidity`
truthiness test); otherwise solves the inverse Magnus relation (through the
abstract `exp`/`log`), re-solves with the below-zero coefficients when a
non-negative temperature produced a negative dew point, clamps at the air
temperature, and rounds to one decimal. -/
def calc_dewpoint (geo : Geo) (temperature humidity : Option ℚ) : Option ℚ :=
  match temperature, humidity with
  | some t, some h =>
    if t = 0 ∨ h = 0 then none
    else
      let C1 : ℚ := 6.10780
      let C2_N : ℚ := 17.84362
      let C3_N : ℚ := 245.425
      let C2 : ℚ := if t ≥ 0 then 17.08085 else C2_N
      let C3 : ℚ := if t ≥ 0 then 234.175 else C3_N
      let svp := ((calc_svp geo (some t)).getD 0)
      let tmp := geo.log (0.01 * h * svp / C1)
      let dt := C3 * tmp / (C2 - tmp)
      let dt := if t ≥ 0 ∧ dt < 0 then C3_N * tmp / (C2_N - tmp) else dt
      let dt := if dt > t then t else dt
      some (pyroundN dt 1)
  | _, _ => none

/-! ## WindData (lines 111-149): 1-minute wind accumulation -/

structure WindData where
  windVektor : ℚ × ℚ
  windSpeed : ℚ
  windCount : ℕ
deriving DecidableEq, Repr

def WindData.init : WindData :=
  { windVektor := (0, 0), windSpeed := 0, windCount := 0 }

def WindData.reset (_w : WindData) : WindData :=
  WindData.init

/-- `WindData.add(data)`: decode speed (`data[3]`, mph→m/s by `0.44704`) and
the 10-bit direction code (`data[4] << 2 | data[6] & 0x02`), clamp invalid
codes to `360`, and accumulate speed and the speed-scaled unit vector.
A missing or non-hex token raises, i.e. yields `none`. -/
def WindData.add (geo : Geo) (data : List String) (w : WindData) : Option WindData :=
  match hexAt data 3, hexAt data 4, hexAt data 6 with
  | some b3, some b4, some b6 =>
    let speed : ℚ := (b3 : ℚ) * 0.44704
    let dir0 : ℕ := (b4 <<< 2) ||| (b6 &&& 0x02)
    let direction : ℤ := if dir0 > 1024 ∨ dir0 ≤ 0 then 360 else pyround ((dir0 : ℚ) * 360 / 1024)
    some { windVektor := (w.windVektor.1 + speed * geo.vcos direction,
                          w.windVektor.2 + speed * geo.vsin direction),
           windSpeed := w.windSpeed + speed,
           windCount := w.windCount + 1 }
  | _, _, _ => none

/-- `WindData.get()`: `None` when no sample; otherwise the pair of the scalar
average speed and the optional circular-mean direction, the latter present
only when the average speed is positive and the vector norm exceeds `0.01`. -/
def WindData.get (geo : Geo) (w : WindData) : Option (ℚ × Option ℚ) :=
  if w.windCount = 0 then none
  else
    let length := geo.norm2 w.windVektor.1 w.windVektor.2
    let speed := w.windSpeed / (w.windCount : ℚ)
    let direction : Option ℚ :=
      if speed > 0 ∧ length > 0.01 then some (geo.dirAngle w.windVektor.1 w.windVektor.2 length)
      else none
    some (speed, direction)

/-! ## The N-slot rolling accumulator

`WindDataN`, `TemperatureDataN`, `HumityDataN` and `BarometerDataN`
(lines 152-168, 215-231, 255-271, 316-332) are four textually identical
classes over their element type; `DataN` models the shared shape, and the
four names below are its instantiations. -/

structure DataN (σ : Type) where
  N : ℕ
  pos : ℕ
  array : List σ
deriving DecidableEq, Repr

/-- `__init__(N)`: cursor `0` and `N` freshly initialised instances. -/
def DataN.init {σ : Type} (N : ℕ) (e : σ) : DataN σ :=
  { N := N, pos := 0, array := List.replicate N e }

/-- `reset()`: advance `pos` by one mod `N`, then reset exactly that slot.
(`self.array[self.pos]` is always in range in the source, where
`len(array) = N`; the out-of-range case, unreachable from the constructor,
is modelled as leaving the array unchanged.) -/
def DataN.reset {σ : Type} (rst : σ → σ) (d : DataN σ) : DataN σ :=
  match d.array.get? ((d.pos + 1) % d.N) with
  | some e => { d with pos := (d.pos + 1) % d.N,
                       array := d.array.set ((d.pos + 1) % d.N) (rst e) }
  | none => { d with pos := (d.pos + 1) % d.N }

/-- The `for i in range(self.N): self.array[i].add(data)` loop: apply the
element-level `add` to every slot in order; the element's exception (raised
before any slot is mutated, since all slots decode the same tokens) aborts
the whole call. -/
def optMap {σ : Type} (f : σ → Option σ) : List σ → Option (List σ)
  | [] => some []
  | a :: rest =>
    match f a with
    | none => none
    | some b =>
      match optMap f rest with
      | none => none
      | some bs => some (b :: bs)

def DataN.add {σ : Type} (f : σ → Option σ) (d : DataN σ) : Option (DataN σ) :=
  match optMap f d.array with
  | none => none
  | some a => some { d with array := a }

/-- `get()`: read the slot at `(pos + 1) % N` through the element's `get`. -/
def DataN.get {σ α : Type} (g : σ → Option α) (d : DataN σ) : Option α :=
  (d.array.get? ((d.pos + 1) % d.N)).bind g

/-! ## RainData (lines 171-191) -/

structure RainData where
  rainSum : ℚ
  rainTicks : Option ℕ
deriving DecidableEq, Repr

def RainData.init : RainData :=
  { rainSum := 0, rainTicks := none }

/-- `RainData.reset()`: sets `rainSum = 0` and touches nothing else. -/
def RainData.reset (r : RainData) : RainData :=
  { r with rainSum := 0 }

/-- `RainData.add(data)`: read the 7-bit tip counter from `data[5]`; on a
strictly larger counter add the plain delta, on a strictly smaller one add
the single-wrap delta `128 + new - old`, each tip worth `0.2001` mm; always
store the new counter (the source assigns `self.rainTicks = ticks` in both
branches and once more unconditionally). -/
def RainData.add (data : List String) (r : RainData) : Option RainData :=
  match hexAt data 5, r.rainTicks with
  | some b5, some old =>
    if b5 &&& 0x7f > old then
      some { rainSum := r.rainSum + (((b5 &&& 0x7f : ℕ) : ℚ) - (old : ℚ)) * 0.2001,
             rainTicks := some (b5 &&& 0x7f) }
    else if b5 &&& 0x7f < old then
      some { rainSum := r.rainSum + (128 + ((b5 &&& 0x7f : ℕ) : ℚ) - (old : ℚ)) * 0.2001,
             rainTicks := some (b5 &&& 0x7f) }
    else some { r with rainTicks := some (b5 &&& 0x7f) }
  | some b5, none => some { r with rainTicks := some (b5 &&& 0x7f) }
  | none, _ => none

/-- `RainData.get()`: the running sum, unconditionally. -/
def RainData.get (r : RainData) : ℚ :=
  r.rainSum

/-! ## TemperatureData (lines 194-212) -/

structure TemperatureData where
  temp : ℚ
  tempCount : ℕ
deriving DecidableEq, Repr

def TemperatureData.init : TemperatureData :=
  { temp := 0, tempCount := 0 }

def TemperatureData.reset (_t : TemperatureData) : TemperatureData :=
  TemperatureData.init

/-- `TemperatureData.add(data)`: big-endian 16-bit value from `data[5]`,
`data[6]`, two's-complement corrected, then `(value/160 - 32) * 5/9`. -/
def TemperatureData.add (data : List String) (t : TemperatureData) : Option TemperatureData :=
  match hexAt data 5, hexAt data 6 with
  | some b5, some b6 =>
    let value : ℤ := (b5 : ℤ) * 256 + (b6 : ℤ)
    let value : ℤ := if value > 32767 then value - 65536 else value
    let tempAkt : ℚ := ((value : ℚ) / 160 - 32) * 5 / 9
    some { temp := t.temp + tempAkt, tempCount := t.tempCount + 1 }
  | _, _ => none

def TemperatureData.get (t : TemperatureData) : Option ℚ :=
  if t.tempCount > 0 then some (t.temp / (t.tempCount : ℚ)) else none

/-! ## HumityData (lines 234-252) -/

structure HumityData where
  humidity : ℚ
  humidityCount : ℕ
deriving DecidableEq, Repr

def HumityData.init : HumityData :=
  { humidity := 0, humidityCount := 0 }

def HumityData.reset (_h : HumityData) : HumityData :=
  HumityData.init

/-- `HumityData.add(data)`: 12-bit value from the high nibble of `data[6]`
and `data[5]`, scaled by `1.01/10`, clamped at `100`. -/
def HumityData.add (data : List String) (h : HumityData) : Option HumityData :=
  match hexAt data 5, hexAt data 6 with
  | some b5, some b6 =>
    let value : ℕ := ((b6 >>> 4) <<< 8) + b5
    let humidityAkt : ℚ := (value : ℚ) * 1.01 / 10
    let humidityAkt : ℚ := if humidityAkt > 100 then 100 else humidityAkt
    some { humidity := h.humidity + humidityAkt, humidityCount := h.humidityCount + 1 }
  | _, _ => none

def HumityData.get (h : HumityData) : Option ℚ :=
  if h.humidityCount > 0 then some (h.humidity / (h.humidityCount : ℚ)) else none

/-! ## WindGustData (lines 274-291) -/

structure WindGustData where
  windGust : ℚ
  windGustCount : ℕ
deriving DecidableEq, Repr

def WindGustData.init : WindGustData :=
  { windGust := 0, windGustCount := 0 }

def WindGustData.reset (_g : WindGustData) : WindGustData :=
  WindGustData.init

/-- `WindGustData.add(data)`: gust speed from `data[5]` scaled as wind speed;
keep the running maximum. -/
def WindGustData.add (data : List String) (g : WindGustData) : Option WindGustData :=
  match hexAt data 5 with
  | some b5 =>
    let gust : ℚ := (b5 : ℚ) * 0.44704
    some { windGust := if gust > g.windGust then gust else g.windGust,
           windGustCount := g.windGustCount + 1 }
  | none => none

/-- `WindGustData.get()`: the maximum, unless no sample was added AND the
maximum is still zero (the documented zero/no-data ambiguity). -/
def WindGustData.get (g : WindGustData) : Option ℚ :=
  if g.windGustCount > 0 ∨ g.windGust > 0 then some g.windGust else none

/-! ## BarometerData (lines 294-313) -/

structure BarometerData where
  height : ℚ
  barometer : ℚ
  barometerCount : ℕ
deriving DecidableEq, Repr

def BarometerData.init (height : ℚ) : BarometerData :=
  { height := height, barometer := 0, barometerCount := 0 }

def BarometerData.reset (b : BarometerData) : BarometerData :=
  { b with barometer := 0, barometerCount := 0 }

/-- `BarometerData.add(data)`: `data[4]` parsed as a decimal float and divided
by `100`; summed directly for an `'A'` frame, otherwise projected to sea
level by the barometric formula (abstracted as `geo.baroSea height`). -/
def BarometerData.add (geo : Geo) (data : List String) (b : BarometerData) :
    Option BarometerData :=
  match decAt data 4 with
  | some p =>
    some { b with
           barometer := b.barometer +
             (if data.get? 0 = some "A" then p / 100 else geo.baroSea b.height (p / 100)),
           barometerCount := b.barometerCount + 1 }
  | none => none

def BarometerData.get (b : BarometerData) : Option ℚ :=
  if b.barometerCount > 0 then some (b.barometer / (b.barometerCount : ℚ)) else none

/-! The four rolling instantiations. -/

def WindDataN.add (geo : Geo) (data : List String) (d : DataN WindData) :
    Option (DataN WindData) :=
  DataN.add (WindData.add geo data) d

def WindDataN.reset (d : DataN WindData) : DataN WindData :=
  DataN.reset WindData.reset d

def WindDataN.get (geo : Geo) (d : DataN WindData) : Option (ℚ × Option ℚ) :=
  DataN.get (WindData.get geo) d

def TemperatureDataN.add (data : List String) (d : DataN TemperatureData) :
    Option (DataN TemperatureData) :=
  DataN.add (TemperatureData.add data) d

def TemperatureDataN.reset (d : DataN TemperatureData) : DataN TemperatureData :=
  DataN.reset TemperatureData.reset d

def TemperatureDataN.get (d : DataN TemperatureData) : Option ℚ :=
  DataN.get TemperatureData.get d

def HumityDataN.add (data : List String) (d : DataN HumityData) : Option (DataN HumityData) :=
  DataN.add (HumityData.add data) d

def HumityDataN.reset (d : DataN HumityData) : DataN HumityData :=
  DataN.reset HumityData.reset d

def HumityDataN.get (d : DataN HumityData) : Option ℚ :=
  DataN.get HumityData.get d

def BarometerDataN.add (geo : Geo) (data : List String) (d : DataN BarometerData) :
    Option (DataN BarometerData) :=
  DataN.add (BarometerData.add geo data) d

def BarometerDataN.reset (d : DataN BarometerData) : DataN BarometerData :=
  DataN.reset BarometerData.reset d

def BarometerDataN.get (d : DataN BarometerData) : Option ℚ :=
  DataN.get BarometerData.get d

/-! ## StationParser (lines 334-432) -/

structure StationParser where
  barometer_data : DataN BarometerData
  wind_data : DataN WindData
  rain_data : RainData
  temp_data : DataN TemperatureData
  humidy_data : DataN HumityData
  gust_data : WindGustData
  packet_time : Option ℤ
deriving DecidableEq, Repr

/-- `StationParser.__init__`: fixed station height `310.8`, window sizes
`10, 10, 5, 5`, no bucket open. -/
def StationParser.init : StationParser :=
  { barometer_data := DataN.init 10 (BarometerData.init 310.8),
    wind_data := DataN.init 10 WindData.init,
    rain_data := RainData.init,
    temp_data := DataN.init 5 TemperatureData.init,
    humidy_data := DataN.init 5 HumityData.init,
    gust_data := WindGustData.init,
    packet_time := none }

/-- `StationParser.sensor(data)` (lines 410-432): the channel id from the
first character of token 2, requiring at least 10 tokens. -/
def StationParser.sensor (data : List String) : Option Char :=
  if data = [] ∨ data.length < 10 then none
  else
    match data.get? 2 with
    | none => none
    | some t2 =>
      match t2.toList.get? 0 with
      | none => none
      | some ch =>
        if ch = '2' then some 'V'
        else if ch = '5' then some 'R'
        else if ch = '7' then some 'S'
        else if ch = '8' then some 'T'
        else if ch = '9' then some 'G'
        else if ch = 'A' then some 'H'
        else if ch = 'E' then some 'N'
        else some 'I'

/-- The emitted observation (the `packet` dict of lines 356-379). -/
structure Packet where
  dateTime : Option ℤ
  barometer : Option ℚ
  windSpeed : Option ℚ
  windDir : Option ℚ
  windGust : Option ℚ
  rain : ℚ
  outTemp : Option ℚ
  outHumidity : Option ℚ
  dewpoint : Option ℚ
deriving DecidableEq, Repr

/-- The packet-building block of `parse` (lines 356-379), evaluated on the
state `p` in which `packet_time` has already been moved to the new bucket
and the barometer sample has been added.  Every optional field goes through
the `round(x, n) if x else None` truthiness idiom. -/
def buildPacket (geo : Geo) (p : StationParser) : Packet :=
  let _barometer := BarometerDataN.get p.barometer_data
  let wind_info := WindDataN.get geo p.wind_data
  let _windSpeed := wind_info.map Prod.fst
  let _windDir := wind_info.bind Prod.snd
  let _windGust := WindGustData.get p.gust_data
  let _outTemp := TemperatureDataN.get p.temp_data
  let _outHumidity := HumityDataN.get p.humidy_data
  { dateTime := p.packet_time,
    barometer := truthyRound _barometer 1,
    windSpeed := truthyRound _windSpeed 2,
    windDir := truthyRound _windDir 0,
    windGust := truthyRound _windGust 2,
    rain := RainData.get p.rain_data,
    outTemp := truthyRound _outTemp 1,
    outHumidity := truthyRound _outHumidity 0,
    dewpoint := calc_dewpoint geo _outTemp _outHumidity }

/-- The `# reset data` block of lines 382-387. -/
def resetAll (p : StationParser) : StationParser :=
  { p with
    barometer_data := BarometerDataN.reset p.barometer_data,
    wind_data := WindDataN.reset p.wind_data,
    rain_data := RainData.reset p.rain_data,
    temp_data := TemperatureDataN.reset p.temp_data,
    gust_data := WindGustData.reset p.gust_data,
    humidy_data := HumityDataN.reset p.humidy_data }

/-- `StationParser.parse(data, data_time)` (lines 346-408).  The outer
`Option` is an uncaught Python exception escaping `parse`; the inner
`Option Packet` is its return value. -/
def StationParser.parse (geo : Geo) (p : StationParser) (data : List String) (data_time : ℤ) :
    Option (StationParser × Option Packet) :=
  match data.get? 0 with
  | none => some (p, none)
  | some tok0 =>
    if tok0 ≠ "A" ∧ tok0 ≠ "B" ∧ tok0 ≠ "I" then some (p, none)
    else if tok0 = "A" ∨ tok0 = "B" then
      match BarometerDataN.add geo data p.barometer_data with
      | none => none
      | some bd =>
        let p1 := { p with barometer_data := bd }
        let new_packet_time := data_time - data_time % 60
        if p1.packet_time ≠ some new_packet_time then
          let p2 := { p1 with packet_time := some new_packet_time }
          some (resetAll p2, some (buildPacket geo p2))
        else some (p1, none)
    else
      if crc data = 0 then
        match WindDataN.add geo data p.wind_data with
        | none => none
        | some wd =>
          let p1 := { p with wind_data := wd }
          match StationParser.sensor data with
          | some 'N' =>
            match RainData.add data p1.rain_data with
            | none => none
            | some rd => some ({ p1 with rain_data := rd }, none)
          | some 'T' =>
            match TemperatureDataN.add data p1.temp_data with
            | none => none
            | some td => some ({ p1 with temp_data := td }, none)
          | some 'G' =>
            match WindGustData.add data p1.gust_data with
            | none => none
            | some gd => some ({ p1 with gust_data := gd }, none)
          | some 'H' =>
            match HumityDataN.add data p1.humidy_data with
            | none => none
            | some hd => some ({ p1 with humidy_data := hd }, none)
          | _ => some (p1, none)
      else some (p, none)

/-- Sequential replay of `(frame, timestamp)` pairs through `parse`,
collecting the emitted packets in order (the driver's polling loop). -/
def runParser (geo : Geo) (p : StationParser) :
    List (List String × ℤ) → Option (StationParser × List Packet)
  | [] => some (p, [])
  | (data, t) :: rest =>
    match StationParser.parse geo p data t with
    | none => none
    | some (p1, emitted) =>
      match runParser geo p1 rest with
      | none => none
      | some (p2, pkts) =>
        some (p2, (match emitted with | some pkt => pkt :: pkts | none => pkts))

/-! ## Concrete frames used by the witnesses and counterexamples

The CRC-carrying `'I'` frames below fold to `0` over tokens 2..9 (bytes 8-9
hold the CRC of bytes 2-7); token 2 starts with `'8'`, the temperature
channel. -/

/-- A `'B'` (barometer) frame; `data[4]` is the decimal raw pressure. -/
def bfr : List String := ["B", "0", "0", "0", "10000"]

/-- CRC-valid temperature frame: speed byte `0x10`, raw temperature
`0x1680 = 5760`, i.e. `(5760/160 - 32) * 5/9 = 20/9` °C. -/
def tfr : List String := ["I", "00", "80", "10", "00", "16", "80", "00", "3a", "21"]

/-- CRC-valid temperature frame with raw temperature `0x1400 = 5120`,
i.e. exactly `0` °C. -/
def tzfr : List String := ["I", "00", "80", "10", "00", "14", "00", "00", "4f", "d9"]

/-- Rain-counter frames: only `data[5]` (the tip counter) matters to
`RainData.add`; values 120, 125, 3. -/
def fr120 : List String := ["I", "0", "0", "0", "0", "78"]

def fr125 : List String := ["I", "0", "0", "0", "0", "7d"]

def fr3 : List String := ["I", "0", "0", "0", "0", "03"]

/-- The end-to-end input sequence of C2: one `'B'` frame at `t = 0`, five
valid wind+temperature `'I'` frames at `t = 10..50`, one `'B'` at `t = 61`. -/
def seqC2 : List (List String × ℤ) :=
  [(bfr, 0), (tfr, 10), (tfr, 20), (tfr, 30), (tfr, 40), (tfr, 50), (bfr, 61)]

/-- Input sequence for C7: a single valid temperature sample whose decoded
value is exactly `0` °C inside the bucket. -/
def seqC7 : List (List String × ℤ) := [(bfr, 0), (tzfr, 10), (bfr, 61)]

/-- The first six inputs of `seqC2` (everything before the closing `'B'`). -/
def seqC2a : List (List String × ℤ) :=
  [(bfr, 0), (tfr, 10), (tfr, 20), (tfr, 30), (tfr, 40), (tfr, 50)]

/-- Fallback values used only to extract components of successful runs. -/
def junkR : StationParser × List Packet := (StationParser.init, [])

def junkP : Packet :=
  { dateTime := none, barometer := none, windSpeed := none, windDir := none,
    windGust := none, rain := 0, outTemp := none, outHumidity := none, dewpoint := none }

/-- Final state and emitted packets of the `seqC2` run. -/
def runC2 (geo : Geo) : StationParser × List Packet :=
  (runParser geo StationParser.init seqC2).getD junkR

def pktA (geo : Geo) : Packet := (runC2 geo).2.getD 0 junkP

def pktB (geo : Geo) : Packet := (runC2 geo).2.getD 1 junkP

/-- The wind reading (average speed) consumed by the second Observation of
`seqC2`: the read slot of the wind window after the six prefix inputs. -/
def windRead6 (geo : Geo) : Option ℚ :=
  (WindDataN.get geo ((runParser geo StationParser.init seqC2a).getD junkR).1.wind_data).map
    Prod.fst

/-- The barometer window state after the first `'B'` frame of `bfr` is fed to
a fresh parser (used to discharge the witness hypotheses of C1). -/
def bd0 : DataN BarometerData :=
  (BarometerDataN.add geoZero bfr StationParser.init.barometer_data).getD
    (DataN.init 0 (BarometerData.init 0))

/-- Rain state after the counter sequence `[120, 125, 3]`. -/
def rainState3 : RainData :=
  (((RainData.add fr120 RainData.init).bind (RainData.add fr125)).bind
    (RainData.add fr3)).getD RainData.init

/-- Rain state after a single counter observation `120`. -/
def rainAfter120 : RainData :=
  (RainData.add fr120 RainData.init).getD RainData.init

/-! ## Helper lemmas -/

/-- `optMap` success: lengths agree and every slot is the image of the
corresponding input slot. -/
theorem optMap_length_get {σ : Type} (f : σ → Option σ) :
    ∀ l l2 : List σ, optMap f l = some l2 →
      l2.length = l.length ∧ ∀ j a, l.get? j = some a → l2.get? j = f a := by
  intro l
  induction l with
  | nil =>
    intro l2 h
    simp only [optMap] at h
    cases h
    exact ⟨rfl, by intro j a h; simp at h⟩
  | cons a rest ih =>
    intro l2 h
    simp only [optMap] at h
    cases hfa : f a with
    | none => rw [hfa] at h; cases h
    | some b =>
      rw [hfa] at h
      cases hrest : optMap f rest with
      | none => rw [hrest] at h; cases h
      | some bs =>
        rw [hrest] at h
        cases h
        obtain ⟨hlen, hget⟩ := ih bs hrest
        refine ⟨by simp [hlen], ?_⟩
        intro j x hj
        cases j with
        | zero =>
          simp only [List.get?] at hj ⊢
          cases hj
          exact hfa.symm
        | succ j =>
          simp only [List.get?] at hj ⊢
          exact hget j x hj

/-- `DataN.add` success: cursor and size unchanged, array mapped. -/
theorem DataN.add_parts {σ : Type} (f : σ → Option σ) (d d2 : DataN σ)
    (h : DataN.add f d = some d2) :
    d2.N = d.N ∧ d2.pos = d.pos ∧ optMap f d.array = some d2.array := by
  unfold DataN.add at h
  cases hm : optMap f d.array with
  | none => rw [hm] at h; cases h
  | some a => rw [hm] at h; cases h; exact ⟨rfl, rfl, rfl⟩

/-- `DataN.reset` single-step shape: advance the cursor, reset exactly the
slot it lands on, leave every other slot unchanged. -/
theorem DataN.reset_parts {σ : Type} (rst : σ → σ) (d : DataN σ) :
    (DataN.reset rst d).pos = (d.pos + 1) % d.N ∧
    (DataN.reset rst d).N = d.N ∧
    (∀ j, j ≠ (d.pos + 1) % d.N →
      (DataN.reset rst d).array.get? j = d.array.get? j) ∧
    (DataN.reset rst d).array.get? ((d.pos + 1) % d.N)
      = (d.array.get? ((d.pos + 1) % d.N)).map rst := by
  unfold DataN.reset
  split
  · rename_i e hg
    refine ⟨rfl, rfl, ?_, ?_⟩
    · intro j hj
      show (d.array.set ((d.pos + 1) % d.N) (rst e)).get? j = d.array.get? j
      rw [List.get?_eq_getElem?, List.get?_eq_getElem?,
        List.getElem?_set_ne (fun h => hj h.symm)]
    · show (d.array.set ((d.pos + 1) % d.N) (rst e)).get? ((d.pos + 1) % d.N)
        = (d.array.get? ((d.pos + 1) % d.N)).map rst
      rw [List.get?_eq_getElem?] at hg
      rw [List.get?_eq_getElem?, List.getElem?_set_self', List.get?_eq_getElem? d.array, hg]
      rfl
  · rename_i hg
    exact ⟨rfl, rfl, fun j _ => rfl, by show d.array.get? _ = _; rw [hg]; rfl⟩

/-! ## Operation sequences over a rolling accumulator (for C5)

An abstract client either feeds a sample (`addOp`, carrying the element-level
`add` already applied to the decoded frame) or advances the bucket
(`resetOp`), exactly the two mutating entry points the `*DataN` classes
expose to `StationParser`. -/

inductive AccOp (σ : Type) where
  | addOp : (σ → Option σ) → AccOp σ
  | resetOp : AccOp σ

def DataN.runOps {σ : Type} (rst : σ → σ) : DataN σ → List (AccOp σ) → Option (DataN σ)
  | d, [] => some d
  | d, AccOp.resetOp :: rest => DataN.runOps rst (DataN.reset rst d) rest
  | d, AccOp.addOp f :: rest =>
    match DataN.add f d with
    | none => none
    | some d1 => DataN.runOps rst d1 rest

def countResets {σ : Type} : List (AccOp σ) → ℕ
  | [] => 0
  | AccOp.resetOp :: rest => countResets rest + 1
  | AccOp.addOp _ :: rest => countResets rest

/-- The step index (1-based, counting only resets) at which slot `i` of an
`N`-slot ring was last cleared after `k` resets, `0` meaning never: the
`j`-th reset clears slot `j % N`, so this is the largest `j ≤ k` with
`j % N = i` (clipped at `0` by truncated subtraction). -/
def lastClear (N k i : ℕ) : ℕ :=
  k - ((k + N - i) % N)

/-- A successful run preserves the size, and leaves the cursor at
`(initial position + number of resets) mod N`. -/
theorem DataN.runOps_pos {σ : Type} (rst : σ → σ) :
    ∀ (ops : List (AccOp σ)) (d d2 : DataN σ), DataN.runOps rst d ops = some d2 →
      d2.N = d.N ∧ (d.pos < d.N → d2.pos = (d.pos + countResets ops) % d.N) := by
  intro ops
  induction ops with
  | nil =>
    intro d d2 h
    cases h
    exact ⟨rfl, fun hlt => (Nat.mod_eq_of_lt (by simpa using hlt)).symm⟩
  | cons op rest ih =>
    intro d d2 h
    cases op with
    | resetOp =>
      have hstep := DataN.reset_parts rst d
      have h1 : DataN.runOps rst (DataN.reset rst d) rest = some d2 := h
      obtain ⟨hN, hpos⟩ := ih (DataN.reset rst d) d2 h1
      refine ⟨hN.trans hstep.2.1, fun hlt => ?_⟩
      have hlt1 : (DataN.reset rst d).pos < (DataN.reset rst d).N := by
        rw [hstep.1, hstep.2.1]
        exact Nat.mod_lt _ (Nat.lt_of_le_of_lt (Nat.zero_le _) hlt)
      have := hpos hlt1
      rw [this, hstep.1, hstep.2.1, Nat.mod_add_mod, countResets]
      ring_nf
    | addOp f =>
      simp only [DataN.runOps] at h
      cases hadd : DataN.add f d with
      | none => rw [hadd] at h; cases h
      | some d1 =>
        rw [hadd] at h
        obtain ⟨hN1, hpos1, _⟩ := DataN.add_parts f d d1 hadd
        obtain ⟨hN, hpos⟩ := ih d1 d2 h
        refine ⟨hN.trans hN1, fun hlt => ?_⟩
        have : d1.pos < d1.N := by rw [hN1, hpos1]; exact hlt
        rw [hpos this, hN1, hpos1, countResets]

theorem mod_read_aux (N k : ℕ) (hN : 1 ≤ N) : (k + N - (k + 1) % N) % N = N - 1 := by
  have hd := Nat.div_add_mod (k + 1) N
  have hr : (k + 1) % N < N := Nat.mod_lt _ hN
  have h1 : k + N - (k + 1) % N = (N - 1) + N * ((k + 1) / N) := by omega
  rw [h1, Nat.add_mul_mod_self_left, Nat.mod_eq_of_lt (by omega)]

/-- After `k` resets the read slot `(k + 1) % N` was last cleared at step
`k - (N - 1)` (i.e. never, when fewer than `N` resets have happened). -/
theorem lastClear_read (N k : ℕ) (hN : 1 ≤ N) :
    lastClear N k ((k + 1) % N) = k - (N - 1) := by
  unfold lastClear
  rw [mod_read_aux N k hN]

/-- No slot was last cleared earlier than step `k - (N - 1)`. -/
theorem lastClear_min (N k i : ℕ) (hN : 1 ≤ N) : k - (N - 1) ≤ lastClear N k i := by
  unfold lastClear
  have : (k + N - i) % N < N := Nat.mod_lt _ hN
  omega

/-- The slot at the cursor, `k % N`, is the one cleared by the most recent
(`k`-th) reset. -/
theorem lastClear_last (N k : ℕ) (hN : 1 ≤ N) : lastClear N k (k % N) = k := by
  unfold lastClear
  have hd := Nat.div_add_mod k N
  have hr : k % N < N := Nat.mod_lt _ hN
  have h0 : N * (k / N + 1) = N * (k / N) + N := by ring
  have h1 : k + N - k % N = 0 + N * (k / N + 1) := by omega
  rw [h1, Nat.add_mul_mod_self_left, Nat.zero_mod, Nat.sub_zero]

/-- For `N ≥ 2` the read slot is never the slot the last reset cleared. -/
theorem read_ne_last (N k : ℕ) (hN : 2 ≤ N) : (k % N + 1) % N ≠ k % N := by
  intro h
  rw [Nat.mod_add_mod] at h
  have h2 : k ≡ k + 1 [MOD N] := h.symm
  have h3 : N ∣ (k + 1) - k := (Nat.modEq_iff_dvd' (Nat.le_succ k)).mp h2
  simp at h3
  omega

/-- C5: for every rolling accumulator of size `N` (the engine uses `N = 10`
and `N = 5`, so `2 ≤ N` covers every instance in the program) and every
operation sequence: each bucket-advance first moves the cursor one step
(mod `N`) and then clears exactly that slot, leaving all others untouched;
`get()` always reads the slot at `(pos + 1) % N`; after the whole run the
cursor sits at `(number of resets) % N` and the `j`-th reset cleared slot
`j % N`; hence (once at least one reset happened) the read slot differs from
the most recently cleared slot — which lives at the cursor and was cleared at
step `k` — and carries the oldest (smallest) last-clear step of all slots. -/
theorem rolling_accumulator_spec {σ α : Type} (rst : σ → σ) (g : σ → Option α)
    (N : ℕ) (e : σ) (ops : List (AccOp σ)) (d2 : DataN σ)
    (hN : 2 ≤ N) (hrun : DataN.runOps rst (DataN.init N e) ops = some d2) :
    (∀ d : DataN σ, (DataN.reset rst d).pos = (d.pos + 1) % d.N ∧
       (DataN.reset rst d).N = d.N ∧
       (∀ j, j ≠ (d.pos + 1) % d.N →
         (DataN.reset rst d).array.get? j = d.array.get? j) ∧
       (DataN.reset rst d).array.get? ((d.pos + 1) % d.N)
         = (d.array.get? ((d.pos + 1) % d.N)).map rst) ∧
    (∀ d : DataN σ, DataN.get g d = (d.array.get? ((d.pos + 1) % d.N)).bind g) ∧
    d2.pos = countResets ops % N ∧
    (∀ pre post dpre, ops = pre ++ AccOp.resetOp :: post →
       DataN.runOps rst (DataN.init N e) pre = some dpre →
       (DataN.reset rst dpre).pos = (countResets pre + 1) % N) ∧
    (1 ≤ countResets ops →
       (d2.pos + 1) % N ≠ d2.pos ∧
       lastClear N (countResets ops) d2.pos = countResets ops ∧
       ∀ i, i < N →
         lastClear N (countResets ops) ((d2.pos + 1) % N)
           ≤ lastClear N (countResets ops) i) := by
  have hN1 : 1 ≤ N := le_trans (by norm_num) hN
  have hpos2 : d2.pos = countResets ops % N := by
    obtain ⟨_, hp⟩ := DataN.runOps_pos rst ops (DataN.init N e) d2 hrun
    have h0 : (DataN.init N e).pos = 0 := rfl
    have hNi : (DataN.init N e).N = N := rfl
    have := hp (by rw [h0, hNi]; omega)
    rw [this, h0, hNi, Nat.zero_add]
  refine ⟨fun d => DataN.reset_parts rst d, fun d => rfl, hpos2, ?_, ?_⟩
  · intro pre post dpre hsplit hpre
    obtain ⟨hNd, hp⟩ := DataN.runOps_pos rst pre (DataN.init N e) dpre hpre
    have hNd' : dpre.N = N := hNd
    have hpd : dpre.pos = countResets pre % N := by
      have := hp (by show (0:ℕ) < N; omega)
      rw [this]
      simp [DataN.init]
    rw [(DataN.reset_parts rst dpre).1, hpd, hNd', Nat.mod_add_mod]
  · intro _
    rw [hpos2]
    refine ⟨read_ne_last N (countResets ops) hN, lastClear_last N (countResets ops) hN1, ?_⟩
    intro i _
    rw [Nat.mod_add_mod, lastClear_read N (countResets ops) hN1]
    exact lastClear_min N (countResets ops) i hN1

/-! ## Claim theorems -/

/-- The state reached inside the emission branch of `parse`: barometer window
updated, `packet_time` moved to the new bucket start. -/
def advanceBucket (p : StationParser) (bd : DataN BarometerData) (npt : ℤ) : StationParser :=
  { p with barometer_data := bd, packet_time := some npt }

/-- C1 (amended): on EVERY barometer-class frame whose minute differs from
the recorded `packet_time` — including the very first one ever seen, where
`packet_time` is unset and the inequality therefore holds — the engine
records the new bucket start AND returns an Observation stamped with the NEW
bucket start; it returns no Observation exactly when the frame's minute
equals the recorded one. -/
theorem barometer_frame_emission (geo : Geo) (p : StationParser) (data : List String)
    (t : ℤ) (bd : DataN BarometerData)
    (htok : data.get? 0 = some "A" ∨ data.get? 0 = some "B")
    (hadd : BarometerDataN.add geo data p.barometer_data = some bd) :
    (p.packet_time ≠ some (t - t % 60) →
       StationParser.parse geo p data t =
         some (resetAll (advanceBucket p bd (t - t % 60)),
               some (buildPacket geo (advanceBucket p bd (t - t % 60)))) ∧
       (buildPacket geo (advanceBucket p bd (t - t % 60))).dateTime
         = some (t - t % 60)) ∧
    (p.packet_time = some (t - t % 60) →
       StationParser.parse geo p data t = some ({ p with barometer_data := bd }, none)) := by
  have hkey : StationParser.parse geo p data t =
      if p.packet_time ≠ some (t - t % 60) then
        some (resetAll (advanceBucket p bd (t - t % 60)),
              some (buildPacket geo (advanceBucket p bd (t - t % 60))))
      else some ({ p with barometer_data := bd }, none) := by
    rcases htok with h | h <;>
    · rw [List.get?_eq_getElem?] at h
      simp [StationParser.parse, h, hadd, advanceBucket]
  constructor
  · intro hne
    rw [hkey, if_pos hne]
    exact ⟨rfl, rfl⟩
  · intro heq
    rw [hkey, if_neg (by simpa using heq)]

unseal Rat.add Rat.sub Rat.mul Rat.inv Rat.ofScientific in
/-- C1 witness: the general emission theorem applied to a fresh parser and
the concrete `'B'` frame `bfr` at `t = 0`. -/
theorem barometer_frame_emission_witness :
    StationParser.parse geoZero StationParser.init bfr 0 =
      some (resetAll (advanceBucket StationParser.init bd0 ((0:ℤ) - 0 % 60)),
            some (buildPacket geoZero
              (advanceBucket StationParser.init bd0 ((0:ℤ) - 0 % 60)))) :=
  ((barometer_frame_emission geoZero StationParser.init bfr 0 bd0 (Or.inr rfl)
      (by decide)).1 (by decide)).1

unseal Rat.add Rat.sub Rat.mul Rat.inv Rat.ofScientific in
/-- C1 counterexample: on the very first barometer-class frame ever seen the
engine does NOT "return no Observation" — it already emits one. -/
theorem first_frame_emits_observation :
    ((StationParser.parse geoZero StationParser.init bfr 0).bind Prod.snd).isSome = true := by
  decide

unseal Rat.add Rat.sub Rat.mul Rat.inv Rat.ofScientific in
/-- C2 (amended): the sequence `seqC2` makes the decoder emit exactly TWO
Observations, for any values of the transcendental operations: one already
on the first `'B'` frame (dateTime `0`, every sensor field empty), and the
expected data-bearing one on the `'B'` frame at `t = 61` — whose `dateTime`
is `60`, the start of the NEW bucket, not `0`; its `windSpeed = 7.15` and
`outTemp = 2.2` come from the five accumulated `'I'` samples and the fields
of channels that contributed nothing are `None` (humidity, gust, dew point),
except `rain`, which is always present, here as `0`. -/
theorem seqC2_two_observations (geo : Geo) :
    ((runParser geo StationParser.init seqC2).map fun r => r.2.length) = some 2 ∧
    ((runParser geo StationParser.init seqC2).map fun r => r.2.map Packet.dateTime)
      = some [some 0, some 60] ∧
    ((runParser geo StationParser.init seqC2).map fun r => r.2.map Packet.windSpeed)
      = some [none, some (143/20)] ∧
    ((runParser geo StationParser.init seqC2).map fun r => r.2.map Packet.outTemp)
      = some [none, some (11/5)] ∧
    ((runParser geo StationParser.init seqC2).map fun r => r.2.map Packet.outHumidity)
      = some [none, none] ∧
    ((runParser geo StationParser.init seqC2).map fun r => r.2.map Packet.windGust)
      = some [none, none] ∧
    ((runParser geo StationParser.init seqC2).map fun r => r.2.map Packet.dewpoint)
      = some [none, none] ∧
    ((runParser geo StationParser.init seqC2).map fun r => r.2.map Packet.rain)
      = some [0, 0] := by
  refine ⟨rfl, rfl, ?_, rfl, rfl, rfl, rfl, rfl⟩
  have hrun : runParser geo StationParser.init seqC2 = some (runC2 geo) := rfl
  have hlist : (runC2 geo).2 = [pktA geo, pktB geo] := rfl
  have hA : Packet.windSpeed (pktA geo) = none := rfl
  have hB1 : Packet.windSpeed (pktB geo) = truthyRound (windRead6 geo) 2 := rfl
  have hB2 : windRead6 geo
      = some ((0 + 16 * 0.44704 + 16 * 0.44704 + 16 * 0.44704 + 16 * 0.44704
          + 16 * 0.44704 : ℚ) / ((5:ℕ) : ℚ)) := rfl
  have hB3 : truthyRound
      (some ((0 + 16 * 0.44704 + 16 * 0.44704 + 16 * 0.44704 + 16 * 0.44704
        + 16 * 0.44704 : ℚ) / ((5:ℕ) : ℚ))) 2 = some (143/20) := by decide
  rw [hrun]
  simp only [Option.map]
  rw [hlist]
  simp only [List.map]
  rw [hA, hB1, hB2, hB3]

unseal Rat.add Rat.sub Rat.mul Rat.inv Rat.ofScientific in
/-- C2 counterexample: the run emits two Observations, not exactly one, and
the data-bearing second one is stamped `60`, not `0`. -/
theorem seqC2_not_single_observation :
    (runParser geoZero StationParser.init seqC2).map
        (fun r => (r.2.length, r.2.map Packet.dateTime)) = some (2, [some 0, some 60]) := by
  decide

unseal Rat.add Rat.sub Rat.mul Rat.inv Rat.ofScientific in
/-- C3: the frame `["I", "00"]` has no parseable token at position 2, yet
`crc` returns `0` (the untouched preset, because the `try/except` swallows
the failure and returns the partial fold), so the frame is ACCEPTED as
CRC-valid; `parse` then feeds it to the wind estimator, whose read of the
missing token `data[3]` raises an uncaught IndexError (modelled as `none`) —
contradicting the claimed forgiving drop. -/
theorem malformed_frame_accepted_and_raises :
    crc ["I", "00"] = 0 ∧
    StationParser.parse geoZero StationParser.init ["I", "00"] 5 = none := by
  decide

unseal Rat.add Rat.sub Rat.mul Rat.inv Rat.ofScientific in
/-- C4 counterexample: after the tip-counter sequence `[120, 125, 3]` the
accumulated total is `11 × 0.2001` mm, and `RainData.reset` CHANGES it — it
zeroes it — rather than leaving it unchanged. -/
theorem rain_reset_changes_total :
    rainState3.rainSum = 11 * 0.2001 ∧ (RainData.reset rainState3).rainSum = 0 ∧
    (RainData.reset rainState3).rainSum ≠ rainState3.rainSum := by
  decide

/-- C4 (amended): `RainData.reset` sets the accumulated total to ZERO (the
rain field of this engine is a per-bucket quantity, not a session counter)
while leaving the stored tip counter untouched; between resets the total is
monotonically non-decreasing: every successful `add` leaves `rainSum`
unchanged or increases it (given the stored counter is a 7-bit value, an
invariant `add` itself maintains). -/
theorem rain_reset_zeroes_sum_add_monotone (r r2 : RainData) (data : List String)
    (hticks : ∀ o, r.rainTicks = some o → o < 128)
    (hadd : RainData.add data r = some r2) :
    (RainData.reset r).rainSum = 0 ∧ (RainData.reset r).rainTicks = r.rainTicks ∧
    r.rainSum ≤ r2.rainSum ∧ (∀ o, r2.rainTicks = some o → o < 128) := by
  have hbound : ∀ b : ℕ, b &&& 0x7f < 128 := fun b => Nat.lt_succ_of_le Nat.and_le_right
  refine ⟨rfl, rfl, ?_, ?_⟩
  · unfold RainData.add at hadd
    split at hadd
    · rename_i b5 old hb5 hold
      split at hadd
      · rename_i hgt
        cases hadd
        dsimp only
        have h1 : (old : ℚ) < ((b5 &&& 0x7f : ℕ) : ℚ) := by exact_mod_cast hgt
        nlinarith
      · rename_i hngt
        split at hadd
        · rename_i hlt2
          cases hadd
          dsimp only
          have h2 : (old : ℚ) < 128 := by exact_mod_cast hticks old hold
          nlinarith
        · cases hadd
          exact le_refl _
    · rename_i b5 hb5 hold
      cases hadd
      exact le_refl _
    · exact Option.noConfusion hadd
  · unfold RainData.add at hadd
    split at hadd
    · rename_i b5 old hb5 hold
      split at hadd
      · cases hadd
        intro o ho
        cases ho
        exact hbound b5
      · split at hadd
        · cases hadd
          intro o ho
          cases ho
          exact hbound b5
        · cases hadd
          intro o ho
          cases ho
          exact hbound b5
    · rename_i b5 hb5 hold
      cases hadd
      intro o ho
      cases ho
      exact hbound b5
    · exact Option.noConfusion hadd

unseal Rat.add Rat.sub Rat.mul Rat.inv Rat.ofScientific in
/-- C4 witness: the amended claim evaluated at the empty rain state and the
concrete frame `fr120`. -/
theorem rain_reset_zeroes_sum_witness :
    (RainData.reset RainData.init).rainSum = 0 ∧
    (RainData.reset RainData.init).rainTicks = RainData.init.rainTicks ∧
    RainData.init.rainSum ≤ rainAfter120.rainSum ∧
    (∀ o, rainAfter120.rainTicks = some o → o < 128) :=
  rain_reset_zeroes_sum_add_monotone RainData.init rainAfter120 fr120
    (by intro o h; cases h) (by decide)

unseal Rat.add Rat.sub Rat.mul Rat.inv Rat.ofScientific in
/-- C6: the tip-counter sequence `[120, 125, 3]` (one forward wrap between
the last two samples) accumulates `(125-120) + (128+3-125) = 11` ticks, i.e.
`11 × 0.2001` mm, with the counter left at `3`. -/
theorem rain_wraparound_sequence :
    (((RainData.add fr120 RainData.init).bind (RainData.add fr125)).bind (RainData.add fr3))
      = some { rainSum := 11 * 0.2001, rainTicks := some 3 } := by
  decide

/-- Concrete operation sequence for the C5 witness: one broadcast add, then
one bucket advance, on a 5-slot ring over `ℕ`. -/
def opsW : List (AccOp ℕ) := [AccOp.addOp (fun n => some (n + 1)), AccOp.resetOp]

/-- The state reached by `opsW` from a fresh 5-slot ring. -/
def dW : DataN ℕ := (DataN.runOps (fun _ => 0) (DataN.init 5 0) opsW).getD (DataN.init 5 0)

/-- C5 witness: the rolling-accumulator specification applied to the concrete
5-slot run `opsW`. -/
theorem rolling_accumulator_spec_witness :
    (∀ d : DataN ℕ, (DataN.reset (fun _ => 0) d).pos = (d.pos + 1) % d.N ∧
       (DataN.reset (fun _ => 0) d).N = d.N ∧
       (∀ j, j ≠ (d.pos + 1) % d.N →
         (DataN.reset (fun _ => 0) d).array.get? j = d.array.get? j) ∧
       (DataN.reset (fun _ => 0) d).array.get? ((d.pos + 1) % d.N)
         = (d.array.get? ((d.pos + 1) % d.N)).map (fun _ => 0)) ∧
    (∀ d : DataN ℕ, DataN.get (fun n => some n) d
       = (d.array.get? ((d.pos + 1) % d.N)).bind (fun n => some n)) ∧
    dW.pos = countResets opsW % 5 ∧
    (∀ pre post dpre, opsW = pre ++ AccOp.resetOp :: post →
       DataN.runOps (fun _ => 0) (DataN.init 5 0) pre = some dpre →
       (DataN.reset (fun _ => 0) dpre).pos = (countResets pre + 1) % 5) ∧
    (1 ≤ countResets opsW →
       (dW.pos + 1) % 5 ≠ dW.pos ∧
       lastClear 5 (countResets opsW) dW.pos = countResets opsW ∧
       ∀ i, i < 5 →
         lastClear 5 (countResets opsW) ((dW.pos + 1) % 5)
           ≤ lastClear 5 (countResets opsW) i) :=
  rolling_accumulator_spec (fun _ => 0) (fun n => some n) 5 0 opsW dW (by norm_num) rfl

unseal Rat.add Rat.sub Rat.mul Rat.inv Rat.ofScientific in
/-- C7 counterexample: in the run `seqC7` a CRC-valid temperature frame whose
decoded value is exactly `0` °C contributes a sample to the bucket (every
slot of the temperature window holds one sample, and the cursor is `1`, so
the emission at `t = 61` reads slot `2`, which holds that sample), yet the
emitted Observation reports `outTemp = None` — the genuine zero-valued
average is reported as an absent field, not as the value zero. -/
theorem zero_temperature_sample_absent :
    ((runParser geoZero StationParser.init seqC7).map fun r => r.2.map Packet.outTemp)
      = some [none, none] ∧
    ((runParser geoZero StationParser.init [(bfr, 0), (tzfr, 10)]).map
      (fun r => r.1.temp_data.array.map TemperatureData.tempCount)) = some [1, 1, 1, 1, 1] ∧
    ((runParser geoZero StationParser.init [(bfr, 0), (tzfr, 10)]).map
      (fun r => r.1.temp_data.pos)) = some 1 := by
  refine ⟨?_, ?_, ?_⟩ <;> decide

/-- `truthyRound` yields an absent field exactly on `None` and on the exact
value zero. -/
theorem truthyRound_none_iff (o : Option ℚ) (n : ℕ) :
    truthyRound o n = none ↔ o = none ∨ o = some 0 := by
  cases o with
  | none => simp [truthyRound]
  | some v =>
    by_cases hv : v = 0 <;> simp [truthyRound, hv]

/-- The `round(x, n) if x else None` idiom over a sum/count average is absent
exactly when the count is zero or the average is exactly zero. -/
theorem truthy_avg_iff (s : ℚ) (c n : ℕ) :
    truthyRound (if c > 0 then some (s / (c : ℚ)) else none) n = none ↔
      c = 0 ∨ s / (c : ℚ) = 0 := by
  by_cases hc : c > 0
  · rw [if_pos hc, truthyRound_none_iff]
    constructor
    · rintro (h | h)
      · cases h
      · exact Or.inr (by injection h)
    · rintro (h | h)
      · omega
      · exact Or.inr (by rw [h])
  · rw [if_neg hc, truthyRound_none_iff]
    constructor
    · intro _
      left
      omega
    · intro _
      exact Or.inl rfl

/-- C7 (amended): in every built Observation each optional field is absent
exactly when the metric's read slot contributed no sample OR the computed
value is Python-falsy (exactly zero) — a genuine zero-valued average becomes
`None`, not `0`; `windGust` is absent iff its value is zero or nothing was
seen; `windDir` further requires a positive average speed, a vector norm
above the noise floor, and a nonzero computed angle; `rain` is always
present, possibly as `0`. -/
theorem packet_field_truthiness (geo : Geo) (p : StationParser)
    (bSlot : BarometerData) (wSlot : WindData) (tSlot : TemperatureData) (hSlot : HumityData)
    (hb : p.barometer_data.array.get? ((p.barometer_data.pos + 1) % p.barometer_data.N)
      = some bSlot)
    (hw : p.wind_data.array.get? ((p.wind_data.pos + 1) % p.wind_data.N) = some wSlot)
    (ht : p.temp_data.array.get? ((p.temp_data.pos + 1) % p.temp_data.N) = some tSlot)
    (hh : p.humidy_data.array.get? ((p.humidy_data.pos + 1) % p.humidy_data.N) = some hSlot) :
    ((buildPacket geo p).barometer = none ↔
       bSlot.barometerCount = 0 ∨ bSlot.barometer / (bSlot.barometerCount : ℚ) = 0) ∧
    ((buildPacket geo p).windSpeed = none ↔
       wSlot.windCount = 0 ∨ wSlot.windSpeed / (wSlot.windCount : ℚ) = 0) ∧
    ((buildPacket geo p).outTemp = none ↔
       tSlot.tempCount = 0 ∨ tSlot.temp / (tSlot.tempCount : ℚ) = 0) ∧
    ((buildPacket geo p).outHumidity = none ↔
       hSlot.humidityCount = 0 ∨ hSlot.humidity / (hSlot.humidityCount : ℚ) = 0) ∧
    ((buildPacket geo p).windGust = none ↔
       (¬ (p.gust_data.windGustCount > 0 ∨ p.gust_data.windGust > 0)) ∨
         p.gust_data.windGust = 0) ∧
    ((buildPacket geo p).windDir = none ↔
       wSlot.windCount = 0 ∨
       ¬ (wSlot.windSpeed / (wSlot.windCount : ℚ) > 0 ∧
            geo.norm2 wSlot.windVektor.1 wSlot.windVektor.2 > 0.01) ∨
       geo.dirAngle wSlot.windVektor.1 wSlot.windVektor.2
         (geo.norm2 wSlot.windVektor.1 wSlot.windVektor.2) = 0) ∧
    ((buildPacket geo p).rain = p.rain_data.rainSum) := by
  have hbg : BarometerDataN.get p.barometer_data = BarometerData.get bSlot := by
    unfold BarometerDataN.get DataN.get
    rw [hb]
    rfl
  have hwg : WindDataN.get geo p.wind_data = WindData.get geo wSlot := by
    unfold WindDataN.get DataN.get
    rw [hw]
    rfl
  have htg : TemperatureDataN.get p.temp_data = TemperatureData.get tSlot := by
    unfold TemperatureDataN.get DataN.get
    rw [ht]
    rfl
  have hhg : HumityDataN.get p.humidy_data = HumityData.get hSlot := by
    unfold HumityDataN.get DataN.get
    rw [hh]
    rfl
  refine ⟨?_, ?_, ?_, ?_, ?_, ?_, rfl⟩
  · show truthyRound (BarometerDataN.get p.barometer_data) 1 = none ↔ _
    rw [hbg]
    exact truthy_avg_iff _ _ _
  · show truthyRound ((WindDataN.get geo p.wind_data).map Prod.fst) 2 = none ↔ _
    rw [hwg]
    unfold WindData.get
    by_cases hc : wSlot.windCount = 0
    · rw [if_pos hc]
      simp [truthyRound, hc]
    · rw [if_neg hc]
      rw [show ((some (wSlot.windSpeed / (wSlot.windCount : ℚ),
            if wSlot.windSpeed / (wSlot.windCount : ℚ) > 0 ∧
                geo.norm2 wSlot.windVektor.1 wSlot.windVektor.2 > 0.01 then
              some (geo.dirAngle wSlot.windVektor.1 wSlot.windVektor.2
                (geo.norm2 wSlot.windVektor.1 wSlot.windVektor.2))
            else none)).map Prod.fst)
          = some (wSlot.windSpeed / (wSlot.windCount : ℚ)) from rfl]
      rw [truthyRound_none_iff]
      simp [hc]
  · show truthyRound (TemperatureDataN.get p.temp_data) 1 = none ↔ _
    rw [htg]
    exact truthy_avg_iff _ _ _
  · show truthyRound (HumityDataN.get p.humidy_data) 0 = none ↔ _
    rw [hhg]
    exact truthy_avg_iff _ _ _
  · show truthyRound (WindGustData.get p.gust_data) 2 = none ↔ _
    unfold WindGustData.get
    by_cases hg : p.gust_data.windGustCount > 0 ∨ p.gust_data.windGust > 0
    · rw [if_pos hg, truthyRound_none_iff]
      simp [hg]
    · rw [if_neg hg, truthyRound_none_iff]
      simp [hg]
  · show truthyRound ((WindDataN.get geo p.wind_data).bind Prod.snd) 0 = none ↔ _
    rw [hwg]
    unfold WindData.get
    by_cases hc : wSlot.windCount = 0
    · rw [if_pos hc]
      simp [truthyRound, hc]
    · rw [if_neg hc]
      by_cases hcond : wSlot.windSpeed / (wSlot.windCount : ℚ) > 0 ∧
          geo.norm2 wSlot.windVektor.1 wSlot.windVektor.2 > 0.01
      · rw [show ((some (wSlot.windSpeed / (wSlot.windCount : ℚ),
              if wSlot.windSpeed / (wSlot.windCount : ℚ) > 0 ∧
                  geo.norm2 wSlot.windVektor.1 wSlot.windVektor.2 > 0.01 then
                some (geo.dirAngle wSlot.windVektor.1 wSlot.windVektor.2
                  (geo.norm2 wSlot.windVektor.1 wSlot.windVektor.2))
              else none)).bind Prod.snd)
            = (if wSlot.windSpeed / (wSlot.windCount : ℚ) > 0 ∧
                  geo.norm2 wSlot.windVektor.1 wSlot.windVektor.2 > 0.01 then
                some (geo.dirAngle wSlot.windVektor.1 wSlot.windVektor.2
                  (geo.norm2 wSlot.windVektor.1 wSlot.windVektor.2))
              else none) from rfl]
        rw [if_pos hcond, truthyRound_none_iff]
        simp [hc, hcond]
      · rw [show ((some (wSlot.windSpeed / (wSlot.windCount : ℚ),
              if wSlot.windSpeed / (wSlot.windCount : ℚ) > 0 ∧
                  geo.norm2 wSlot.windVektor.1 wSlot.windVektor.2 > 0.01 then
                some (geo.dirAngle wSlot.windVektor.1 wSlot.windVektor.2
                  (geo.norm2 wSlot.windVektor.1 wSlot.windVektor.2))
              else none)).bind Prod.snd)
            = (if wSlot.windSpeed / (wSlot.windCount : ℚ) > 0 ∧
                  geo.norm2 wSlot.windVektor.1 wSlot.windVektor.2 > 0.01 then
                some (geo.dirAngle wSlot.windVektor.1 wSlot.windVektor.2
                  (geo.norm2 wSlot.windVektor.1 wSlot.windVektor.2))
              else none) from rfl]
        rw [if_neg hcond, truthyRound_none_iff]
        simp [hc, hcond]

/-- C7 witness: the truthiness characterisation at a fresh parser state
(every window empty), through `geoZero`. -/
theorem packet_field_truthiness_witness :
    ((buildPacket geoZero StationParser.init).barometer = none ↔
       (BarometerData.init 310.8).barometerCount = 0 ∨
         (BarometerData.init 310.8).barometer
           / ((BarometerData.init 310.8).barometerCount : ℚ) = 0) ∧
    ((buildPacket geoZero StationParser.init).windSpeed = none ↔
       WindData.init.windCount = 0 ∨
         WindData.init.windSpeed / (WindData.init.windCount : ℚ) = 0) ∧
    ((buildPacket geoZero StationParser.init).outTemp = none ↔
       TemperatureData.init.tempCount = 0 ∨
         TemperatureData.init.temp / (TemperatureData.init.tempCount : ℚ) = 0) ∧
    ((buildPacket geoZero StationParser.init).outHumidity = none ↔
       HumityData.init.humidityCount = 0 ∨
         HumityData.init.humidity / (HumityData.init.humidityCount : ℚ) = 0) ∧
    ((buildPacket geoZero StationParser.init).windGust = none ↔
       (¬ (StationParser.init.gust_data.windGustCount > 0 ∨
             StationParser.init.gust_data.windGust > 0)) ∨
         StationParser.init.gust_data.windGust = 0) ∧
    ((buildPacket geoZero StationParser.init).windDir = none ↔
       WindData.init.windCount = 0 ∨
       ¬ (WindData.init.windSpeed / (WindData.init.windCount : ℚ) > 0 ∧
            geoZero.norm2 WindData.init.windVektor.1 WindData.init.windVektor.2 > 0.01) ∨
       geoZero.dirAngle WindData.init.windVektor.1 WindData.init.windVektor.2
         (geoZero.norm2 WindData.init.windVektor.1 WindData.init.windVektor.2) = 0) ∧
    ((buildPacket geoZero StationParser.init).rain = StationParser.init.rain_data.rainSum) :=
  packet_field_truthiness geoZero StationParser.init
    (BarometerData.init 310.8) WindData.init TemperatureData.init HumityData.init
    rfl rfl rfl rfl

/-- C8: `calc_dewpoint` returns `None` not only when an input is missing but
also whenever the temperature or the humidity is exactly `0`, because the
guard tests Python truthiness (`if not temperature or not humidity`). -/
theorem dewpoint_zero_inputs_none (geo : Geo) (t h : Option ℚ) :
    calc_dewpoint geo (some 0) h = none ∧ calc_dewpoint geo t (some 0) = none ∧
    calc_dewpoint geo none h = none ∧ calc_dewpoint geo t none = none := by
  refine ⟨?_, ?_, ?_, ?_⟩
  · cases h with
    | none => rfl
    | some v => simp [calc_dewpoint]
  · cases t with
    | none => rfl
    | some v => simp [calc_dewpoint]
  · rfl
  · cases t <;> rfl

/-- C9: `RainData.reset` touches only the accumulated sum: the stored
tip-counter value survives every reset unchanged (so wraparound deltas stay
correct across bucket boundaries), while the sum is cleared. -/
theorem rain_reset_preserves_ticks (r : RainData) :
    (RainData.reset r).rainTicks = r.rainTicks ∧ (RainData.reset r).rainSum = 0 :=
  ⟨rfl, rfl⟩

/-- C10: one broadcast `add` applies the decoded sample to EVERY slot of the
rolling window: the arrays keep their length, every slot is the element-level
`add` image of the old slot, so every slot's count rises by one and every
slot's sum absorbs the decoded sample — shown for the wind window (speed
scaled by `0.44704` from `data[3]`) and the barometer window (pressure
contribution from `data[4]`). -/
theorem addN_broadcasts_all_slots (geo : Geo) (data : List String)
    (dw dw2 : DataN WindData) (db db2 : DataN BarometerData)
    (hw : WindDataN.add geo data dw = some dw2)
    (hb : BarometerDataN.add geo data db = some db2) :
    dw2.array.length = dw.array.length ∧ db2.array.length = db.array.length ∧
    (∀ j w, dw.array.get? j = some w → dw2.array.get? j = WindData.add geo data w) ∧
    (∀ j b, db.array.get? j = some b → db2.array.get? j = BarometerData.add geo data b) ∧
    (∀ j w w2, dw.array.get? j = some w → dw2.array.get? j = some w2 →
       w2.windCount = w.windCount + 1 ∧
       ∃ b3, hexAt data 3 = some b3 ∧ w2.windSpeed = w.windSpeed + (b3 : ℚ) * 0.44704) ∧
    (∀ j b b2, db.array.get? j = some b → db2.array.get? j = some b2 →
       b2.barometerCount = b.barometerCount + 1 ∧
       ∃ v, decAt data 4 = some v ∧
         b2.barometer = b.barometer +
           (if data.get? 0 = some "A" then v / 100 else geo.baroSea b.height (v / 100))) := by
  obtain ⟨hNw, hpw, hmw⟩ := DataN.add_parts (WindData.add geo data) dw dw2 hw
  obtain ⟨hNb, hpb, hmb⟩ := DataN.add_parts (BarometerData.add geo data) db db2 hb
  obtain ⟨hlw, hgw⟩ := optMap_length_get _ _ _ hmw
  obtain ⟨hlb, hgb⟩ := optMap_length_get _ _ _ hmb
  refine ⟨hlw, hlb, fun j w hj => hgw j w hj, fun j b hj => hgb j b hj, ?_, ?_⟩
  · intro j w w2 hj hj2
    have hadd : WindData.add geo data w = some w2 := by
      rw [← hgw j w hj, hj2]
    unfold WindData.add at hadd
    cases h3 : hexAt data 3 with
    | none => rw [h3] at hadd; cases hadd
    | some b3 =>
      cases h4 : hexAt data 4 with
      | none => rw [h3, h4] at hadd; cases hadd
      | some b4 =>
        cases h6 : hexAt data 6 with
        | none => rw [h3, h4, h6] at hadd; cases hadd
        | some b6 =>
          rw [h3, h4, h6] at hadd
          cases hadd
          exact ⟨rfl, b3, rfl, rfl⟩
  · intro j b b2 hj hj2
    have hadd : BarometerData.add geo data b = some b2 := by
      rw [← hgb j b hj, hj2]
    unfold BarometerData.add at hadd
    cases h4 : decAt data 4 with
    | none => rw [h4] at hadd; cases hadd
    | some v =>
      rw [h4] at hadd
      cases hadd
      exact ⟨rfl, v, rfl, rfl⟩

/-- The wind / barometer windows after one broadcast add of `tfr` to fresh
windows (C10 witness extraction). -/
def dwTfr : DataN WindData :=
  (WindDataN.add geoZero tfr (DataN.init 10 WindData.init)).getD (DataN.init 10 WindData.init)

def dbTfr : DataN BarometerData :=
  (BarometerDataN.add geoZero tfr (DataN.init 10 (BarometerData.init 310.8))).getD
    (DataN.init 10 (BarometerData.init 310.8))

/-- C10 witness: the broadcast theorem applied to the concrete frame `tfr`
and fresh 10-slot windows. -/
theorem addN_broadcasts_all_slots_witness :
    dwTfr.array.length = (DataN.init 10 WindData.init).array.length ∧
    dbTfr.array.length = (DataN.init 10 (BarometerData.init 310.8)).array.length ∧
    (∀ j w, (DataN.init 10 WindData.init).array.get? j = some w →
       dwTfr.array.get? j = WindData.add geoZero tfr w) ∧
    (∀ j b, (DataN.init 10 (BarometerData.init 310.8)).array.get? j = some b →
       dbTfr.array.get? j = BarometerData.add geoZero tfr b) ∧
    (∀ j w w2, (DataN.init 10 WindData.init).array.get? j = some w →
       dwTfr.array.get? j = some w2 →
       w2.windCount = w.windCount + 1 ∧
       ∃ b3, hexAt tfr 3 = some b3 ∧ w2.windSpeed = w.windSpeed + (b3 : ℚ) * 0.44704) ∧
    (∀ j b b2, (DataN.init 10 (BarometerData.init 310.8)).array.get? j = some b →
       dbTfr.array.get? j = some b2 →
       b2.barometerCount = b.barometerCount + 1 ∧
       ∃ v, decAt tfr 4 = some v ∧
         b2.barometer = b.barometer +
           (if tfr.get? 0 = some "A" then v / 100
            else geoZero.baroSea b.height (v / 100))) :=
  addN_broadcasts_all_slots geoZero tfr (DataN.init 10 WindData.init) dwTfr
    (DataN.init 10 (BarometerData.init 310.8)) dbTfr rfl rfl

end Vueiss
